import Mathlib

/-!
Verification development for the MatrixRain core simulation (`matrix_rain.py`).

The Python source is shallowly embedded: float arithmetic is modelled by `ℚ`,
Python `int(...)` by truncation toward zero (`pyInt`), Python `round(...)` by
round-half-to-even (`pyRound`), and Python `//` on integers by `Int.fdiv`.
Calls to `random.*` are modelled by explicit oracle inputs, documented at each
field with the range Python's generator guarantees.  Pygame rendering
(surfaces, blitting, fonts, the mutable per-cell character values) is pure
output and is not part of the simulation state modelled here; `update_and_draw`
returns, besides the new column state, the list of drawn cell indices.
-/

/-- Python `int(x)` on a real value: truncation toward zero. -/
def pyInt (q : ℚ) : ℤ := if 0 ≤ q then ⌊q⌋ else ⌈q⌉

/-- Python `round(x)` on a real value: nearest integer, ties to even. -/
def pyRound (q : ℚ) : ℤ :=
  let n := ⌊q⌋
  let r := q - (n : ℚ)
  if r < 1/2 then n
  else if 1/2 < r then n + 1
  else if n % 2 = 0 then n else n + 1

/-- Python `max(0, min(255, n))` on integer color components. -/
def clamp255 (n : ℤ) : ℤ := max 0 (min 255 n)

/-- Python `max(0.0, min(1.0, q))` on intensities. -/
def clamp01 (q : ℚ) : ℚ := max 0 (min 1 q)

/-- RGB color triple with integer components (Python 3-tuples of ints). -/
abbrev RGB := ℤ × ℤ × ℤ

/-- Sum of the r, g, b components of a color (total luminance). -/
def totalLuminance (c : RGB) : ℤ := c.1 + c.2.1 + c.2.2

-- Module level tunables of matrix_rain.py (defaults, lines 124-199).

def FRAME_RATE : ℚ := 60

def BACKGROUND_COLOR : RGB := (0, 0, 0)

def LEADER_BRIGHTNESS_SPEED_MULTIPLIER : ℚ := 1

def SLOWEST_LEADER_FLICKER_INTERVAL_MS : ℚ := 600

def FASTEST_LEADER_FLICKER_INTERVAL_MS : ℚ := 4

def SPEED_DISTRIBUTION_BIAS : ℚ := 5/2

def VARIABLE_SPEED_ENABLED : Bool := true

def SPEED_CHANGE_AMOUNT : ℚ := 3/10

def CASCADE_CHANCE_PER_SECOND : ℚ := 1/4

def CASCADE_RADIUS_PPS : ℚ := 500

def CASCADE_MAX_RADIUS : ℚ := 500

def CASCADE_FADE_IN_TIME_MS : ℚ := 250

def DARK_CASCADE_CHANCE : ℚ := 1/2

def CASCADE_BRIGHTNESS_BOOST : ℚ := 1

def CASCADE_FADE_LENGTH : ℤ := 10

def CASCADE_SPEED_CPS : ℚ := 20

def RIPPLE_CHANCE_PER_SECOND : ℚ := 1/4

def RIPPLE_RADIUS_PPS : ℚ := 120

def RIPPLE_MAX_RADIUS : ℚ := 700

def RIPPLE_FADE_IN_TIME_MS : ℚ := 2000

def RIPPLE_FADE_OUT_TIME_S : ℚ := 5

def RIPPLE_BRIGHTNESS_BOOST : ℚ := 13/10

def FG_LEADER_COLOR : RGB := (255, 255, 255)

def FG_TRAIL_COLOR : RGB := (50, 180, 120)

def FG_SECOND_CHAR_COLOR : RGB := (80, 255, 160)

def FG_SPEED_RANGE : ℚ × ℚ := (10, 300)

def FG_LENGTH_RANGE : ℤ × ℤ := (5, 70)

def FG_DORMANCY_RANGE : ℤ × ℤ := (0, 1000)

def FG_FLICKER_CHANCE : ℚ := 1/25

def FG_HIGHLIGHT_HALO_SIZE : ℤ := 8

def COLOR_QUANTIZATION_STEP : ℤ := 16

/-- Embeds `quantize_color` (matrix_rain.py lines 100-122): snaps a color to a
step grid and clamps each component to 0..255.  A color that does not unpack
into exactly three components takes the failsafe branch `(0, 255, 0)`.
The input color is a list of rationals (Python numeric components); `step` is
an integer as read from config (`getint`). -/
def quantize_color (color : List ℚ) (step : ℤ) : RGB :=
  match color with
  | [r, g, b] =>
    let r_quant := pyRound (r / (step : ℚ)) * step
    let g_quant := pyRound (g / (step : ℚ)) * step
    let b_quant := pyRound (b / (step : ℚ)) * step
    (clamp255 r_quant, clamp255 g_quant, clamp255 b_quant)
  | _ => (0, 255, 0)

/-- Lifecycle fade of a ripple (matrix_rain.py lines 624-633): cubic ease-in
during the fade-in window, cubic ease-out afterwards. -/
def rippleLifecycleFade (age : ℚ) : ℚ :=
  let fade_in_duration_s := RIPPLE_FADE_IN_TIME_MS / 1000
  if age < fade_in_duration_s then
    let p := clamp01 (age / fade_in_duration_s)
    p * p * p
  else
    let p := 1 - clamp01 ((age - fade_in_duration_s) / RIPPLE_FADE_OUT_TIME_S)
    p * p * p

/-- Blend intensity of a ripple at a cell (matrix_rain.py lines 620-636),
for a cell that passed the `dist_sq < distorted_radius ** 2` test: proximity
fade times lifecycle fade, clamped to [0, 1].  `dist` is the (nonnegative)
euclidean distance from the ripple origin to the cell. -/
def rippleBlendIntensity (age dist distorted_radius : ℚ) : ℚ :=
  let proximity_fade := if 0 < distorted_radius then 1 - dist / distorted_radius else 0
  clamp01 (proximity_fade * rippleLifecycleFade age)

-- Adaptive quality controller (matrix_rain.py lines 955-996).

/-- State of the frame loop's adaptive-quality logic: the rolling FPS window
and the two runtime enable flags. -/
structure AdaptiveState where
  fps_history : List ℚ
  ripples_enabled : Bool
  cascades_enabled : Bool

/-- One frame of the adaptive-quality logic (matrix_rain.py lines 984-996):
when the instantaneous FPS is positive, roll the window (`pop(0)` then
`append`), recompute the mean, and if it is below the threshold disable
ripples first, then cascades. -/
def adaptiveStep (threshold : ℚ) (st : AdaptiveState) (current_fps : ℚ) : AdaptiveState :=
  if 0 < current_fps then
    let hist := st.fps_history.tail ++ [current_fps]
    let avg_fps := hist.sum / (hist.length : ℚ)
    if avg_fps < threshold then
      if st.ripples_enabled then
        { fps_history := hist, ripples_enabled := false, cascades_enabled := st.cascades_enabled }
      else if st.cascades_enabled then
        { fps_history := hist, ripples_enabled := st.ripples_enabled, cascades_enabled := false }
      else
        { fps_history := hist, ripples_enabled := st.ripples_enabled,
          cascades_enabled := st.cascades_enabled }
    else
      { fps_history := hist, ripples_enabled := st.ripples_enabled,
        cascades_enabled := st.cascades_enabled }
  else st

/-- A run of the adaptive-quality logic over a sequence of per-frame FPS
samples. -/
def adaptiveRun (threshold : ℚ) (st : AdaptiveState) (samples : List ℚ) : AdaptiveState :=
  samples.foldl (adaptiveStep threshold) st

-- Column model (matrix_rain.py lines 346-691).

/-- Per-layer column configuration (the `configs['fg']` dict built in `main`,
matrix_rain.py lines 932-941).  The character alphabet and the font cache are
pure rendering data and are not modelled. -/
structure ColumnConfig where
  font_size : ℚ
  line_height_multiplier : ℚ
  speed_range : ℚ × ℚ
  length_range : ℤ × ℤ
  dormancy_range : ℤ × ℤ
  leader_color : RGB
  trail_color : RGB
  second_char_color : RGB
  is_bold : Bool
  flicker_chance : ℚ
  highlight_halo_size : ℤ

/-- The default foreground configuration (`FG_*` module constants). -/
def fgConfig : ColumnConfig :=
  { font_size := 18, line_height_multiplier := 11/10,
    speed_range := FG_SPEED_RANGE, length_range := FG_LENGTH_RANGE,
    dormancy_range := FG_DORMANCY_RANGE,
    leader_color := FG_LEADER_COLOR, trail_color := FG_TRAIL_COLOR,
    second_char_color := FG_SECOND_CHAR_COLOR,
    is_bold := false, flicker_chance := FG_FLICKER_CHANCE,
    highlight_halo_size := FG_HIGHLIGHT_HALO_SIZE }

/-- Simulation state of one column.  The `id` field stands for Python object
identity (used by `HighlightCascade.triggered_columns`, which is a set of
column objects).  The per-cell character values (`self.characters`) and the
scratch surface are rendering data and are not modelled. -/
structure Column where
  id : ℕ
  x : ℚ
  screen_height : ℚ
  config : ColumnConfig
  line_height : ℚ
  num_chars : ℤ
  is_first_run : Bool
  dormant_counter : ℤ
  leader_flicker_timer : ℚ
  trail_length : ℤ
  cascade_pos_float : ℚ
  target_cascade_color : Option RGB
  is_cascade_dark : Bool
  cascade_age : ℚ
  speed_change_timer : ℚ
  next_speed_change : ℚ
  min_speed_pps : ℚ
  max_speed_pps : ℚ
  leader_pos_float : ℚ
  speed_pps : ℚ
  speed_cps : ℚ
  flicker_interval_s : ℚ
  gradient_colors : List RGB

/-- Smoothstep interpolation factor `t * t * (3 - 2 * t)` (line 477). -/
def smoothstep (t : ℚ) : ℚ := t * t * (3 - 2 * t)

/-- One interpolated color component `int(start + (end - start) * t)`
(lines 483-485). -/
def lerpComp (a b : ℤ) (t : ℚ) : ℤ := pyInt ((a : ℚ) + ((b : ℚ) - (a : ℚ)) * t)

/-- The bracketing-stops search of `_precompute_gradient` (lines 464-471):
the first consecutive pair of stops whose positions enclose `position`. -/
def findStops (position : ℚ) :
    List (ℚ × RGB) → Option ((ℚ × RGB) × (ℚ × RGB))
  | s :: e :: rest =>
    if s.1 ≤ position ∧ position ≤ e.1 then some (s, e)
    else findStops position (e :: rest)
  | _ => none

/-- One non-head entry of the gradient (lines 463-486): find the bracketing
stops (defaulting to the first and last stop), smoothstep between them, and
clamp each interpolated component to 0..255. -/
def gradientEntry (stops : List (ℚ × RGB)) (position : ℚ) : RGB :=
  let pair := (findStops position stops).getD
    (stops.headD (0, (0, 0, 0)), stops.getLastD (0, (0, 0, 0)))
  let start_stop := pair.1
  let end_stop := pair.2
  let t := if end_stop.1 > start_stop.1 then
      smoothstep ((position - start_stop.1) / (end_stop.1 - start_stop.1))
    else 1
  (clamp255 (lerpComp start_stop.2.1 end_stop.2.1 t),
   clamp255 (lerpComp start_stop.2.2.1 end_stop.2.2.1 t),
   clamp255 (lerpComp start_stop.2.2.2 end_stop.2.2.2 t))

/-- The color-stop ladder of `_precompute_gradient` (lines 446-454). -/
def colorStops (dynamic_leader_color bright_green mid_bright trail_color dark_green : RGB) :
    List (ℚ × RGB) :=
  [(0, dynamic_leader_color),
   (2/100, bright_green),
   (15/100, bright_green),
   (30/100, mid_bright),
   (50/100, trail_color),
   (75/100, dark_green),
   (1, (0, 0, 0))]

/-- Embeds `Column._precompute_gradient` (lines 418-488).  Integer `// 2` is
Python floor division (`Int.fdiv`); entry 0 is the (speed-brightened) leader
color, later entries are smoothstep interpolations between the stops. -/
def precomputeGradient (config : ColumnConfig) (trail_length : ℤ)
    (normalized_speed : ℚ) : List RGB :=
  if trail_length ≤ 0 then []
  else
    let leader_color := config.leader_color
    let bright_green := config.second_char_color
    let trail_color := config.trail_color
    let brightness_multiplier :=
      1 + normalized_speed * (LEADER_BRIGHTNESS_SPEED_MULTIPLIER - 1)
    let dynamic_leader_color : RGB :=
      (min 255 (pyInt ((leader_color.1 : ℚ) * brightness_multiplier)),
       min 255 (pyInt ((leader_color.2.1 : ℚ) * brightness_multiplier)),
       min 255 (pyInt ((leader_color.2.2 : ℚ) * brightness_multiplier)))
    let mid_bright : RGB :=
      ((bright_green.1 + trail_color.1).fdiv 2,
       (bright_green.2.1 + trail_color.2.1).fdiv 2,
       (bright_green.2.2 + trail_color.2.2).fdiv 2)
    let dark_green : RGB :=
      (trail_color.1.fdiv 2, trail_color.2.1.fdiv 2, trail_color.2.2.fdiv 2)
    let stops := colorStops dynamic_leader_color bright_green mid_bright trail_color dark_green
    (List.range trail_length.toNat).map (fun (i : ℕ) =>
      let position : ℚ := (i : ℚ) / ((max 1 (trail_length - 1) : ℤ) : ℚ)
      if i = 0 then dynamic_leader_color else gradientEntry stops position)

/-- Flicker interval from a curved speed factor (lines 405-407 and 566-568):
interpolate between the slowest and fastest interval, in seconds. -/
def dynamicFlickerInterval (curved_speed : ℚ) : ℚ :=
  ((1 - curved_speed) * SLOWEST_LEADER_FLICKER_INTERVAL_MS
    + curved_speed * FASTEST_LEADER_FLICKER_INTERVAL_MS) / 1000

/-- Oracle inputs consumed by one `_reset_streak` call.  `normalized_speed`
stands for `random.random() ** (1.0 / SPEED_DISTRIBUTION_BIAS)` and therefore
lies in [0, 1); `curved_speed_factor` stands for
`normalized_speed ** FLICKER_SPEED_CURVE_EXPONENT` (exponent 1.3, not
rational-computable, so it is supplied as an input); `length_u` stands for
`random.random()`, in [0, 1); `leader_start` stands for the branch's
`random.randint` result and `dormancy` for `random.randint(*dormancy_range)`;
`next_speed_change` stands for `random.uniform(0.1, 0.5)`. -/
structure ResetRands where
  leader_start : ℤ
  dormancy : ℤ
  normalized_speed : ℚ
  curved_speed_factor : ℚ
  next_speed_change : ℚ
  length_u : ℚ

/-- Embeds `Column._reset_streak` (lines 384-416). -/
def resetStreak (c : Column) (rr : ResetRands) : Column :=
  let c :=
    if c.is_first_run then
      { c with leader_pos_float := (rr.leader_start : ℚ),
               dormant_counter := rr.dormancy, is_first_run := false }
    else
      { c with leader_pos_float := (rr.leader_start : ℚ), dormant_counter := 0 }
  let min_speed := c.config.speed_range.1
  let max_speed := c.config.speed_range.2
  let speed_pps := min_speed + (max_speed - min_speed) * rr.normalized_speed
  let c :=
    { c with speed_pps := speed_pps,
             speed_cps := if c.line_height > 0 then speed_pps / c.line_height else 0,
             min_speed_pps := min_speed, max_speed_pps := max_speed,
             speed_change_timer := 0, next_speed_change := rr.next_speed_change,
             flicker_interval_s := dynamicFlickerInterval rr.curved_speed_factor }
  let min_len := c.config.length_range.1
  let max_len := c.config.length_range.2
  let length_bias := rr.length_u * rr.length_u
  let trail_length :=
    pyInt ((min_len : ℚ) + ((max_len : ℚ) - (min_len : ℚ)) * length_bias)
  { c with trail_length := trail_length, leader_flicker_timer := 0,
           cascade_pos_float := -1,
           gradient_colors := precomputeGradient c.config trail_length rr.normalized_speed }

/-- Oracle inputs of `Column.__init__`: the initial `randint(*length_range)`
trail length, the initial `uniform(0.1, 0.5)` speed-change delay, and the
oracles of the `_reset_streak` call it ends with. -/
structure InitRands where
  init_trail : ℤ
  init_next_change : ℚ
  reset : ResetRands

/-- Embeds `Column.__init__` (lines 347-382).  When `num_chars <= 0` the
Python constructor returns before assigning the remaining attributes; the
model gives those fields the listed inert values, which no modelled operation
reads before guarding on `num_chars <= 0`.  The `pygame.Surface` failure
branch (which also zeroes `num_chars`) is not modelled. -/
def mkColumn (id : ℕ) (x : ℚ) (screen_height : ℚ) (config : ColumnConfig)
    (ir : InitRands) : Column :=
  let line_height := config.font_size * config.line_height_multiplier
  let num_chars : ℤ := if line_height > 0 then ⌈screen_height / line_height⌉ else 0
  let base : Column :=
    { id := id, x := x, screen_height := screen_height, config := config,
      line_height := line_height, num_chars := num_chars,
      is_first_run := true, dormant_counter := 0, leader_flicker_timer := 0,
      trail_length := ir.init_trail, cascade_pos_float := -1,
      target_cascade_color := none, is_cascade_dark := false, cascade_age := 0,
      speed_change_timer := 0, next_speed_change := ir.init_next_change,
      min_speed_pps := 0, max_speed_pps := 0,
      leader_pos_float := 0, speed_pps := 0, speed_cps := 0,
      flicker_interval_s := 0, gradient_colors := [] }
  if num_chars ≤ 0 then base else resetStreak base ir.reset

/-- Embeds `Column.trigger_cascade` (lines 490-516). -/
def triggerCascade (c : Column) (y_pos : ℚ) (is_dark : Bool) : Column :=
  if c.cascade_pos_float ≠ -1 ∨ c.dormant_counter > 0 ∨
      c.trail_length ≤ CASCADE_FADE_LENGTH * 2 + 5 then c
  else if c.line_height ≤ 0 then c
  else
    let target_char_index := pyRound (y_pos / c.line_height)
    if ¬ (0 ≤ target_char_index ∧ target_char_index < c.num_chars) then c
    else
      let leader_pos_int := pyInt c.leader_pos_float
      let highlight_start_pos : ℚ := ((leader_pos_int - target_char_index : ℤ) : ℚ)
      if ¬ (0 ≤ highlight_start_pos ∧ highlight_start_pos < (c.trail_length : ℚ)) then c
      else
        let c := { c with cascade_pos_float := highlight_start_pos,
                          cascade_age := 0, is_cascade_dark := is_dark }
        if c.is_cascade_dark then { c with target_cascade_color := some BACKGROUND_COLOR }
        else
          let base := c.config.leader_color
          let r : ℚ := (base.1 : ℚ) * CASCADE_BRIGHTNESS_BOOST
          let g : ℚ := (base.2.1 : ℚ) * CASCADE_BRIGHTNESS_BOOST
          let b : ℚ := (base.2.2 : ℚ) * CASCADE_BRIGHTNESS_BOOST
          let max_val := max r (max g b)
          if max_val > 255 then
            let scale := 255 / max_val
            { c with
                target_cascade_color :=
                  some (pyInt (r * scale), pyInt (g * scale), pyInt (b * scale)) }
          else
            { c with target_cascade_color := some (pyInt r, pyInt g, pyInt b) }

/-- The variable-speed perturbation block of `update_and_draw` (lines 526-538).
`speed_delta` stands for `random.uniform(-max_change, max_change)` where
`max_change = (max_speed_pps - min_speed_pps) * SPEED_CHANGE_AMOUNT`, and
`next_change` for `random.uniform(0.1, 0.5)`. -/
def variableSpeedStep (c : Column) (dt : ℚ) (speed_delta next_change : ℚ) : Column :=
  if VARIABLE_SPEED_ENABLED then
    let timer := c.speed_change_timer + dt
    if timer ≥ c.next_speed_change then
      let new_speed := max c.min_speed_pps (min c.max_speed_pps (c.speed_pps + speed_delta))
      { c with speed_pps := new_speed,
               speed_cps := if c.line_height > 0 then new_speed / c.line_height else 0,
               speed_change_timer := 0, next_speed_change := next_change }
    else { c with speed_change_timer := timer }
  else c

/-- The per-frame normalized speed of the leader flicker computation
(lines 563-565), including the clamp to [0, 1]; a zero-span (or inverted)
speed range falls back to the constant 0.5 instead of dividing by zero. -/
def normalizedCurrentSpeed (speed_pps min_speed max_speed : ℚ) : ℚ :=
  let raw := if max_speed > min_speed then (speed_pps - min_speed) / (max_speed - min_speed)
    else 1/2
  max 0 (min 1 raw)

/-- The leader-cell flicker block of `update_and_draw` (lines 561-572), as it
acts on the modelled state: the character re-roll is rendering data; the
observable state effect is the conditional reset of `leader_flicker_timer`.
`pow13` stands for `x ** FLICKER_SPEED_CURVE_EXPONENT` (exponent 1.3, not
rational-computable, so supplied as an input function). -/
def flickerLeaderUpdate (c : Column) (dt : ℚ) (pow13 : ℚ → ℚ) : Column :=
  let current_normalized_speed :=
    normalizedCurrentSpeed c.speed_pps c.config.speed_range.1 c.config.speed_range.2
  let curved_speed := pow13 current_normalized_speed
  let current_flicker_interval := dynamicFlickerInterval curved_speed
  if current_flicker_interval < dt ∨ c.leader_flicker_timer ≥ current_flicker_interval then
    if c.leader_flicker_timer ≥ c.flicker_interval_s then
      { c with leader_flicker_timer := 0 }
    else c
  else c

/-- The cascade-overlay decay at the end of `update_and_draw` (lines 687-691):
move the overlay toward the tail of the trail and clear it when it passes
below offset zero. -/
def cascadeOverlayDecay (c : Column) (dt : ℚ) : Column :=
  if c.cascade_pos_float ≠ -1 then
    let pos := c.cascade_pos_float - CASCADE_SPEED_CPS * dt
    let c := { c with cascade_pos_float := pos, cascade_age := c.cascade_age + dt }
    if c.cascade_pos_float < 0 then { c with cascade_pos_float := -1 } else c
  else c

/-- Integer range [a, b) as a list, mirroring Python `range(a, b)`. -/
def intRange (a b : ℤ) : List ℤ := (List.range (b - a).toNat).map (fun k => a + (k : ℤ))

/-- The cell indices collected into `drawable_chars` by the drawing loop of
`update_and_draw` (lines 547-558): indices in
`[max(0, lpi - trail + 1), min(num_chars, lpi + 2))` that are valid slots and
whose distance from the leader lies in `[0, trail_length)`. -/
def drawableIndices (c : Column) : List ℤ :=
  let leader_pos_int := pyInt c.leader_pos_float
  let start_char_index := max 0 (leader_pos_int - c.trail_length + 1)
  let end_char_index := min c.num_chars (leader_pos_int + 2)
  (intRange start_char_index end_char_index).filter (fun i =>
    (0 ≤ i ∧ i < c.num_chars) ∧
      0 ≤ leader_pos_int - i ∧ leader_pos_int - i < c.trail_length)

/-- Oracle inputs consumed by one `update_and_draw` call; per-cell character
re-rolls need no oracle here because the characters are rendering data. -/
structure UpdateRands where
  speed_delta : ℚ
  next_speed_change : ℚ
  pow13 : ℚ → ℚ
  reset : ResetRands

/-- The per-frame timer and head advance of `update_and_draw` (lines 540-541). -/
def advanceLeader (c : Column) (dt : ℚ) : Column :=
  { c with leader_flicker_timer := c.leader_flicker_timer + dt,
           leader_pos_float := c.leader_pos_float + c.speed_cps * dt }

/-- Embeds `Column.update_and_draw` (lines 518-691) on the modelled state,
returning the new state and the list of drawn cell indices.  The guard
`self.num_chars <= 0 or not self.temp_surface` is modelled by its first
disjunct: `or` short-circuits, and `temp_surface` is `None` exactly when the
constructor zeroed `num_chars`.  Per-cell colors, ripple blending and the
blitting are rendering work with no further effect on the modelled state. -/
def updateAndDraw (c : Column) (dt : ℚ) (ur : UpdateRands) : Column × List ℤ :=
  if c.num_chars ≤ 0 then (c, [])
  else if c.dormant_counter > 0 then
    ({ c with dormant_counter := c.dormant_counter - 1 }, [])
  else
    let c2 := advanceLeader (variableSpeedStep c dt ur.speed_delta ur.next_speed_change) dt
    if c2.leader_pos_float - (c2.trail_length : ℚ) > (c2.num_chars : ℚ) then
      (resetStreak c2 ur.reset, [])
    else
      let drawable := drawableIndices c2
      let c3 := if pyInt c2.leader_pos_float ∈ drawable then
          flickerLeaderUpdate c2 dt ur.pow13
        else c2
      if drawable.isEmpty then (c3, [])
      else (cascadeOverlayDecay c3 dt, drawable)

-- Highlight cascades (matrix_rain.py lines 232-316).

/-- Embeds `HighlightCascade` (lines 232-240); `triggered_columns` is a set of
column objects, modelled as a list of column ids. -/
structure Cascade where
  origin_x : ℚ
  origin_y : ℚ
  is_dark : Bool
  current_radius : ℚ
  speed : ℚ
  max_radius : ℚ
  triggered_columns : List ℕ

/-- Embeds `HighlightCascade.__init__`. -/
def mkCascade (origin_x origin_y : ℚ) (is_dark : Bool) : Cascade :=
  { origin_x := origin_x, origin_y := origin_y, is_dark := is_dark,
    current_radius := 0, speed := CASCADE_RADIUS_PPS,
    max_radius := CASCADE_MAX_RADIUS, triggered_columns := [] }

/-- Embeds `distance_sq_point_to_vertical_segment` (lines 262-267). -/
def distance_sq_point_to_vertical_segment (px py seg_x seg_y1 seg_y2 : ℚ) : ℚ :=
  let lo := if seg_y1 > seg_y2 then seg_y2 else seg_y1
  let hi := if seg_y1 > seg_y2 then seg_y1 else seg_y2
  let qx := seg_x
  let qy := max lo (min py hi)
  (px - qx) ^ 2 + (py - qy) ^ 2

/-- One iteration of the inner column loop of `HighlightCascadeManager.update`
(lines 297-313) for a single column: returns the (possibly extended) cascade,
the (possibly triggered) column, and whether `trigger_cascade` was called. -/
def cascadeColStep (casc : Cascade) (col : Column) : Cascade × Column × Bool :=
  if |casc.origin_x - col.x| > casc.current_radius then (casc, col, false)
  else if col.id ∈ casc.triggered_columns ∨ col.dormant_counter > 0 ∨
      col.trail_length ≤ 1 then (casc, col, false)
  else
    let leader_pos_int := pyInt col.leader_pos_float
    if ¬ (0 ≤ leader_pos_int ∧ leader_pos_int < col.num_chars) then (casc, col, false)
    else
      let trail_top_y := ((leader_pos_int - col.trail_length + 1 : ℤ) : ℚ) * col.line_height
      let trail_bottom_y := (leader_pos_int : ℚ) * col.line_height
      let dist_sq_to_streak := distance_sq_point_to_vertical_segment
        casc.origin_x casc.origin_y col.x trail_top_y trail_bottom_y
      if dist_sq_to_streak ≤ casc.current_radius * casc.current_radius then
        ({ casc with triggered_columns := col.id :: casc.triggered_columns },
         triggerCascade col casc.origin_y casc.is_dark, true)
      else (casc, col, false)

/-- The inner column loop of `HighlightCascadeManager.update` over all
columns, also collecting the ids of the columns on which `trigger_cascade`
was called during this pass. -/
def cascadeCols (casc : Cascade) : List Column → Cascade × List Column × List ℕ
  | [] => (casc, [], [])
  | col :: rest =>
    let s := cascadeColStep casc col
    let r := cascadeCols s.1 rest
    (r.1, s.2.1 :: r.2.1, if s.2.2 then col.id :: r.2.2 else r.2.2)

/-- One `HighlightCascadeManager.update` pass for a single cascade
(lines 293-313): grow the radius, then sweep the columns. -/
def cascadeUpdate (casc : Cascade) (cols : List Column) (dt : ℚ) :
    Cascade × List Column × List ℕ :=
  cascadeCols { casc with current_radius := casc.current_radius + casc.speed * dt } cols

/-- A cascade's view of a sequence of `HighlightCascadeManager.update` calls:
at each step the column population (arbitrary, since other code mutates the
columns between updates) and the elapsed time; returns the final cascade and
the concatenated ids of all `trigger_cascade` calls it caused. -/
def cascadeRun (casc : Cascade) : List (List Column × ℚ) → Cascade × List ℕ
  | [] => (casc, [])
  | (cols, dt) :: rest =>
    let u := cascadeUpdate casc cols dt
    let r := cascadeRun u.1 rest
    (r.1, u.2.2 ++ r.2)

/-- Embeds `HighlightCascadeManager` state: the flattened column list and the
active cascades. -/
structure Manager where
  all_columns : List Column
  active_cascades : List Cascade

/-- Oracle inputs of one `HighlightCascadeManager.update`: the spawn roll
(`random.random()`, in [0, 1)), the `random.choice` pick among the eligible
columns (an index), and the dark-variant roll (`random.random()`). -/
structure MgrRands where
  spawn_roll : ℚ
  choice_idx : ℕ
  dark_roll : ℚ

/-- Embeds `HighlightCascadeManager._start_new_cascade` (lines 275-287). -/
def startNewCascade (m : Manager) (choice_idx : ℕ) (dark_roll : ℚ) : Manager :=
  let eligible := m.all_columns.filter (fun c =>
    c.dormant_counter ≤ 0 ∧ 0 < c.leader_pos_float ∧
      c.leader_pos_float < (c.num_chars : ℚ))
  match eligible.get? (choice_idx % eligible.length) with
  | none => m
  | some start_column =>
    let origin_x := start_column.x
    let origin_y := start_column.leader_pos_float * start_column.line_height
    let is_dark_cascade := dark_roll < DARK_CASCADE_CHANCE
    { m with active_cascades :=
        m.active_cascades ++ [mkCascade origin_x origin_y is_dark_cascade] }

/-- Embeds `HighlightCascadeManager.update` (lines 289-316): a stochastic
spawn trial, then each active cascade grows, sweeps the columns, and is
dropped once `current_radius > max_radius` (iteration over a copy with
in-place removal). -/
def managerUpdate (m : Manager) (dt : ℚ) (r : MgrRands) : Manager :=
  let m := if r.spawn_roll < CASCADE_CHANCE_PER_SECOND * dt then
      startNewCascade m r.choice_idx r.dark_roll
    else m
  let step := m.active_cascades.foldl
    (fun (acc : List Cascade × List Column) casc =>
      let u := cascadeUpdate casc acc.2 dt
      (if u.1.current_radius > u.1.max_radius then acc.1 else acc.1 ++ [u.1], u.2.1))
    ([], m.all_columns)
  { all_columns := step.2, active_cascades := step.1 }

/-- The cascade-overlay invariant of the spec: no overlay, or an overlay
offset inside `[0, trail_length)`. -/
def cascadeInv (c : Column) : Prop :=
  c.cascade_pos_float = -1 ∨
    (0 ≤ c.cascade_pos_float ∧ c.cascade_pos_float < (c.trail_length : ℚ))

/-- Componentwise order on colors. -/
@[reducible]
def rgbLE (c d : RGB) : Prop := c.1 ≤ d.1 ∧ c.2.1 ≤ d.2.1 ∧ c.2.2 ≤ d.2.2

/-- The value `gradientEntry` computes on one segment of the stop ladder:
smoothstep between positions `a < b`, interpolating from color `s` to `e`. -/
def segTriple (a b : ℚ) (s e : RGB) (p : ℚ) : RGB :=
  (clamp255 (lerpComp s.1 e.1 (smoothstep ((p - a) / (b - a)))),
   clamp255 (lerpComp s.2.1 e.2.1 (smoothstep ((p - a) / (b - a)))),
   clamp255 (lerpComp s.2.2 e.2.2 (smoothstep ((p - a) / (b - a)))))

/-- The stop ladder `_precompute_gradient` builds under the default color
configuration (leader (255,255,255), second (80,255,160), trail (50,180,120),
hence mid (65,217,140) and dark (25,90,60)). -/
def defaultStops : List (ℚ × RGB) :=
  colorStops (255, 255, 255) (80, 255, 160) (65, 217, 140) (50, 180, 120) (25, 90, 60)

-- Concrete fixtures used by witness theorems.

/-- A concrete well-formed column state (canvas 600 px, line height 20). -/
def testColumn : Column :=
  { id := 0, x := 0, screen_height := 600, config := fgConfig,
    line_height := 20, num_chars := 30,
    is_first_run := false, dormant_counter := 0, leader_flicker_timer := 0,
    trail_length := 10, cascade_pos_float := -1,
    target_cascade_color := none, is_cascade_dark := false, cascade_age := 0,
    speed_change_timer := 0, next_speed_change := 1/4,
    min_speed_pps := 10, max_speed_pps := 300,
    leader_pos_float := 5, speed_pps := 50, speed_cps := 5/2,
    flicker_interval_s := 1/10, gradient_colors := [] }

/-- Concrete reset oracles. -/
def testReset : ResetRands :=
  { leader_start := -3, dormancy := 0, normalized_speed := 1/2,
    curved_speed_factor := 1/2, next_speed_change := 1/4, length_u := 1/2 }

/-- Concrete constructor oracles. -/
def testInit : InitRands :=
  { init_trail := 10, init_next_change := 1/4, reset := testReset }

/-- Concrete update oracles. -/
def testUpdateRands : UpdateRands :=
  { speed_delta := 0, next_speed_change := 1/4, pow13 := fun q => q,
    reset := testReset }

/-- A configuration with zero line height (font size 0). -/
def zeroHeightConfig : ColumnConfig := { fgConfig with font_size := 0 }

/-- A column whose constructor bailed out with `num_chars = 0`. -/
def degenerateColumn : Column := { testColumn with num_chars := 0 }

/-- A manager holding one fresh cascade and no columns. -/
def c6Manager : Manager :=
  { all_columns := [], active_cascades := [mkCascade 0 0 false] }

/-- Manager oracles whose spawn roll suppresses the stochastic spawn. -/
def c6Rands : MgrRands := { spawn_roll := 1, choice_idx := 0, dark_roll := 1 }

-- Arithmetic facts about the Python primitives.

theorem pyInt_le {q : ℚ} {m : ℤ} (h : q ≤ (m : ℚ)) : pyInt q ≤ m := by
  unfold pyInt
  split_ifs with h0
  · exact_mod_cast (Int.floor_le q).trans h
  · exact Int.ceil_le.mpr h

theorem le_pyInt {q : ℚ} {m : ℤ} (h : (m : ℚ) ≤ q) : m ≤ pyInt q := by
  unfold pyInt
  split_ifs with h0
  · exact Int.le_floor.mpr h
  · exact_mod_cast h.trans (Int.le_ceil q)

theorem pyInt_mono {q q' : ℚ} (h : q ≤ q') : pyInt q ≤ pyInt q' := by
  unfold pyInt
  split_ifs with h0 h1 h1
  · exact Int.floor_mono h
  · exact absurd (h0.trans h) h1
  · calc ⌈q⌉ ≤ 0 := Int.ceil_le.mpr (by exact_mod_cast le_of_not_le h0)
      _ ≤ ⌊q'⌋ := Int.floor_nonneg.mpr h1
  · exact Int.ceil_mono h

theorem clamp255_bounds (n : ℤ) : 0 ≤ clamp255 n ∧ clamp255 n ≤ 255 :=
  ⟨le_max_left 0 _, max_le (by norm_num) (min_le_left 255 n)⟩

/-- C10: `quantize_color` is total at its public interface: a 3-component
numeric color with the default step 16 maps to the componentwise rounded
multiple of the step clamped to [0, 255], and any input that does not unpack
into exactly three components maps to the failsafe color (0, 255, 0). -/
theorem quantize_color_total :
    (∀ r g b : ℚ,
      quantize_color [r, g, b] COLOR_QUANTIZATION_STEP =
        (clamp255 (pyRound (r / 16) * 16), clamp255 (pyRound (g / 16) * 16),
         clamp255 (pyRound (b / 16) * 16)) ∧
      (0 ≤ (quantize_color [r, g, b] COLOR_QUANTIZATION_STEP).1 ∧
        (quantize_color [r, g, b] COLOR_QUANTIZATION_STEP).1 ≤ 255) ∧
      (0 ≤ (quantize_color [r, g, b] COLOR_QUANTIZATION_STEP).2.1 ∧
        (quantize_color [r, g, b] COLOR_QUANTIZATION_STEP).2.1 ≤ 255) ∧
      (0 ≤ (quantize_color [r, g, b] COLOR_QUANTIZATION_STEP).2.2 ∧
        (quantize_color [r, g, b] COLOR_QUANTIZATION_STEP).2.2 ≤ 255)) ∧
    (∀ (color : List ℚ) (step : ℤ), color.length ≠ 3 →
      quantize_color color step = (0, 255, 0)) := by
  constructor
  · intro r g b
    refine ⟨by norm_num [quantize_color, COLOR_QUANTIZATION_STEP], ?_, ?_, ?_⟩ <;>
      simp only [quantize_color] <;> exact clamp255_bounds _
  · intro color step h
    rcases color with _ | ⟨a, _ | ⟨b, _ | ⟨c, _ | ⟨d, t⟩⟩⟩⟩ <;>
      first
        | rfl
        | exact absurd rfl h

/-- Witness for C10 at a 2-component input. -/
theorem quantize_color_total_witness : quantize_color [1, 2] 5 = (0, 255, 0) :=
  quantize_color_total.2 [1, 2] 5 (by simp)

/-- C7: for a cell inside a ripple's perturbed radius, the blend intensity is
0 at age 0 and at age fade_in + fade_out, and strictly positive at the
midpoint age between the end of fade-in and the end of fade-out. -/
theorem ripple_intensity_profile (dist distorted_radius : ℚ)
    (hd : 0 ≤ dist) (hin : dist < distorted_radius) :
    rippleBlendIntensity 0 dist distorted_radius = 0 ∧
    rippleBlendIntensity (RIPPLE_FADE_IN_TIME_MS / 1000 + RIPPLE_FADE_OUT_TIME_S)
      dist distorted_radius = 0 ∧
    0 < rippleBlendIntensity
      ((RIPPLE_FADE_IN_TIME_MS / 1000 +
        (RIPPLE_FADE_IN_TIME_MS / 1000 + RIPPLE_FADE_OUT_TIME_S)) / 2)
      dist distorted_radius := by
  have hr : 0 < distorted_radius := lt_of_le_of_lt hd hin
  have hratio0 : 0 ≤ dist / distorted_radius := div_nonneg hd hr.le
  have hratio1 : dist / distorted_radius < 1 := (div_lt_one hr).mpr hin
  refine ⟨?_, ?_, ?_⟩
  · simp [rippleBlendIntensity, rippleLifecycleFade, clamp01,
      RIPPLE_FADE_IN_TIME_MS, RIPPLE_FADE_OUT_TIME_S]
  · simp only [rippleBlendIntensity, rippleLifecycleFade, clamp01,
      RIPPLE_FADE_IN_TIME_MS, RIPPLE_FADE_OUT_TIME_S]
    norm_num
  · have hmid : (RIPPLE_FADE_IN_TIME_MS / 1000 +
        (RIPPLE_FADE_IN_TIME_MS / 1000 + RIPPLE_FADE_OUT_TIME_S)) / 2 = 9/2 := by
      norm_num [RIPPLE_FADE_IN_TIME_MS, RIPPLE_FADE_OUT_TIME_S]
    have hfade : rippleLifecycleFade (9/2) = 1/8 := by
      simp only [rippleLifecycleFade, RIPPLE_FADE_IN_TIME_MS, RIPPLE_FADE_OUT_TIME_S,
        clamp01, min_def, max_def]
      norm_num
    rw [hmid]
    simp only [rippleBlendIntensity, hfade, if_pos hr, clamp01]
    have hx : 0 < (1 - dist / distorted_radius) * (1/8) := by nlinarith
    have hx1 : (1 - dist / distorted_radius) * (1/8) ≤ 1 := by nlinarith
    rw [min_eq_right hx1]
    exact lt_of_lt_of_le hx (le_max_right 0 _)

/-- Witness for C7 at distance 3 inside a perturbed radius of 5. -/
theorem ripple_intensity_profile_witness :
    rippleBlendIntensity 0 3 5 = 0 ∧
    rippleBlendIntensity (RIPPLE_FADE_IN_TIME_MS / 1000 + RIPPLE_FADE_OUT_TIME_S) 3 5 = 0 ∧
    0 < rippleBlendIntensity
      ((RIPPLE_FADE_IN_TIME_MS / 1000 +
        (RIPPLE_FADE_IN_TIME_MS / 1000 + RIPPLE_FADE_OUT_TIME_S)) / 2) 3 5 :=
  ripple_intensity_profile 3 5 (by norm_num) (by norm_num)

theorem adaptiveStep_ripples_off (threshold : ℚ) (st : AdaptiveState) (fps : ℚ)
    (h : st.ripples_enabled = false) :
    (adaptiveStep threshold st fps).ripples_enabled = false := by
  simp only [adaptiveStep]
  split_ifs <;> simp_all

theorem adaptiveStep_cascades_off (threshold : ℚ) (st : AdaptiveState) (fps : ℚ)
    (h : st.cascades_enabled = false) :
    (adaptiveStep threshold st fps).cascades_enabled = false := by
  simp only [adaptiveStep]
  split_ifs <;> simp_all

theorem adaptiveStep_order (threshold : ℚ) (st : AdaptiveState) (fps : ℚ)
    (h : st.cascades_enabled = false → st.ripples_enabled = false) :
    (adaptiveStep threshold st fps).cascades_enabled = false →
      (adaptiveStep threshold st fps).ripples_enabled = false := by
  simp only [adaptiveStep]
  split_ifs <;> simp_all

theorem adaptiveRun_ripples_off (threshold : ℚ) (l : List ℚ) :
    ∀ st : AdaptiveState, st.ripples_enabled = false →
      (adaptiveRun threshold st l).ripples_enabled = false := by
  induction l with
  | nil => intro st h; exact h
  | cons fps rest ih =>
    intro st h
    exact ih _ (adaptiveStep_ripples_off threshold st fps h)

theorem adaptiveRun_cascades_off (threshold : ℚ) (l : List ℚ) :
    ∀ st : AdaptiveState, st.cascades_enabled = false →
      (adaptiveRun threshold st l).cascades_enabled = false := by
  induction l with
  | nil => intro st h; exact h
  | cons fps rest ih =>
    intro st h
    exact ih _ (adaptiveStep_cascades_off threshold st fps h)

theorem adaptiveRun_order (threshold : ℚ) (l : List ℚ) :
    ∀ st : AdaptiveState, (st.cascades_enabled = false → st.ripples_enabled = false) →
      (adaptiveRun threshold st l).cascades_enabled = false →
        (adaptiveRun threshold st l).ripples_enabled = false := by
  induction l with
  | nil => intro st h; exact h
  | cons fps rest ih =>
    intro st h
    exact ih _ (adaptiveStep_order threshold st fps h)

/-- C2: starting a run with ripples and cascades both enabled, at every point
of the run cascades can only be disabled once ripples already are (ripples go
first), and a disabled flag never turns back on for the rest of the run. -/
theorem adaptive_quality_degrade_order (threshold : ℚ) (hist : List ℚ)
    (l1 l2 : List ℚ) :
    ((adaptiveRun threshold ⟨hist, true, true⟩ l1).cascades_enabled = false →
      (adaptiveRun threshold ⟨hist, true, true⟩ l1).ripples_enabled = false) ∧
    ((adaptiveRun threshold ⟨hist, true, true⟩ l1).ripples_enabled = false →
      (adaptiveRun threshold (adaptiveRun threshold ⟨hist, true, true⟩ l1)
        l2).ripples_enabled = false) ∧
    ((adaptiveRun threshold ⟨hist, true, true⟩ l1).cascades_enabled = false →
      (adaptiveRun threshold (adaptiveRun threshold ⟨hist, true, true⟩ l1)
        l2).cascades_enabled = false) :=
  ⟨adaptiveRun_order threshold l1 _ (fun h => by simp_all),
   fun h => adaptiveRun_ripples_off threshold l2 _ h,
   fun h => adaptiveRun_cascades_off threshold l2 _ h⟩

/-- Witness for C2: a concrete low-FPS run. -/
theorem adaptive_quality_degrade_order_witness :
    ((adaptiveRun 45 ⟨[60], true, true⟩ [1]).cascades_enabled = false →
      (adaptiveRun 45 ⟨[60], true, true⟩ [1]).ripples_enabled = false) ∧
    ((adaptiveRun 45 ⟨[60], true, true⟩ [1]).ripples_enabled = false →
      (adaptiveRun 45 (adaptiveRun 45 ⟨[60], true, true⟩ [1]) [1]).ripples_enabled = false) ∧
    ((adaptiveRun 45 ⟨[60], true, true⟩ [1]).cascades_enabled = false →
      (adaptiveRun 45 (adaptiveRun 45 ⟨[60], true, true⟩ [1]) [1]).cascades_enabled = false) :=
  adaptive_quality_degrade_order 45 [60] [1] [1]

/-- C9: `trigger_cascade` is a no-op (the column is returned unchanged) when
the column already carries an active overlay, is dormant, or its trail is too
short for the overlay's fade envelope. -/
theorem trigger_cascade_refused (c : Column) (y_pos : ℚ) (is_dark : Bool)
    (h : c.cascade_pos_float ≠ -1 ∨ c.dormant_counter > 0 ∨
      c.trail_length ≤ CASCADE_FADE_LENGTH * 2 + 5) :
    triggerCascade c y_pos is_dark = c := by
  unfold triggerCascade
  exact if_pos h

/-- Witness for C9: a trail of length 10 is too short (10 <= 25). -/
theorem trigger_cascade_refused_witness : triggerCascade testColumn 100 false = testColumn :=
  trigger_cascade_refused testColumn 100 false (Or.inr (Or.inr (by decide)))

/-- C8: degenerate-geometry guards: a nonpositive line height zeroes
`num_chars` in the constructor; `update_and_draw` on such a column returns at
once, drawing nothing and changing nothing; and a zero-span speed range makes
the per-frame normalized speed fall back to the constant 0.5. -/
theorem degenerate_geometry_guards :
    (∀ (id : ℕ) (x screen_height : ℚ) (config : ColumnConfig) (ir : InitRands),
      config.font_size * config.line_height_multiplier ≤ 0 →
      (mkColumn id x screen_height config ir).num_chars = 0) ∧
    (∀ (c : Column) (dt : ℚ) (ur : UpdateRands), c.num_chars ≤ 0 →
      updateAndDraw c dt ur = (c, [])) ∧
    (∀ speed_pps min_speed max_speed : ℚ, max_speed ≤ min_speed →
      normalizedCurrentSpeed speed_pps min_speed max_speed = 1/2) := by
  refine ⟨?_, ?_, ?_⟩
  · intro id x screen_height config ir h
    have hneg : ¬ (config.font_size * config.line_height_multiplier > 0) := not_lt.mpr h
    simp [mkColumn, hneg]
  · intro c dt ur h
    simp [updateAndDraw, h]
  · intro speed_pps min_speed max_speed h
    have hneg : ¬ (max_speed > min_speed) := not_lt.mpr h
    simp only [normalizedCurrentSpeed, hneg, if_false]
    norm_num

/-- Witness for C8 at concrete degenerate inputs. -/
theorem degenerate_geometry_guards_witness :
    (mkColumn 0 0 600 zeroHeightConfig testInit).num_chars = 0 ∧
    updateAndDraw degenerateColumn 1 testUpdateRands = (degenerateColumn, []) ∧
    normalizedCurrentSpeed 50 10 10 = 1/2 :=
  ⟨degenerate_geometry_guards.1 0 0 600 zeroHeightConfig testInit (by norm_num [zeroHeightConfig, fgConfig]),
   degenerate_geometry_guards.2.1 degenerateColumn 1 testUpdateRands (by decide),
   degenerate_geometry_guards.2.2 50 10 10 le_rfl⟩

theorem resetStreak_trail_length (c : Column) (rr : ResetRands) :
    (resetStreak c rr).trail_length =
      pyInt ((c.config.length_range.1 : ℚ) +
        ((c.config.length_range.2 : ℚ) - (c.config.length_range.1 : ℚ)) *
          (rr.length_u * rr.length_u)) := by
  cases hfr : c.is_first_run <;> simp [resetStreak, hfr]

theorem resetStreak_speed_pps (c : Column) (rr : ResetRands) :
    (resetStreak c rr).speed_pps =
      c.config.speed_range.1 +
        (c.config.speed_range.2 - c.config.speed_range.1) * rr.normalized_speed := by
  cases hfr : c.is_first_run <;> simp [resetStreak, hfr]

theorem resetStreak_cascade_pos (c : Column) (rr : ResetRands) :
    (resetStreak c rr).cascade_pos_float = -1 := by
  cases hfr : c.is_first_run <;> simp [resetStreak, hfr]

theorem variableSpeedStep_speed (c : Column) (dt speed_delta next_change : ℚ) :
    (variableSpeedStep c dt speed_delta next_change).speed_pps = c.speed_pps ∨
    (variableSpeedStep c dt speed_delta next_change).speed_pps =
      max c.min_speed_pps (min c.max_speed_pps (c.speed_pps + speed_delta)) := by
  simp only [variableSpeedStep, VARIABLE_SPEED_ENABLED, if_true]
  split_ifs <;> simp

/-- C4: after every streak reset the freshly sampled trail length lies in the
configured length range and the sampled speed in the configured speed range
(using the ranges the randomness oracles satisfy: `random.random()` lies in
[0, 1), hence so do its powers), and a variable-speed perturbation step keeps
`speed_pps` inside the configured speed range. -/
theorem reset_and_perturbation_in_range :
    (∀ (c : Column) (rr : ResetRands),
      c.config.length_range.1 ≤ c.config.length_range.2 →
      c.config.speed_range.1 ≤ c.config.speed_range.2 →
      0 ≤ rr.normalized_speed → rr.normalized_speed ≤ 1 →
      0 ≤ rr.length_u → rr.length_u < 1 →
      c.config.length_range.1 ≤ (resetStreak c rr).trail_length ∧
      (resetStreak c rr).trail_length ≤ c.config.length_range.2 ∧
      c.config.speed_range.1 ≤ (resetStreak c rr).speed_pps ∧
      (resetStreak c rr).speed_pps ≤ c.config.speed_range.2) ∧
    (∀ (c : Column) (dt speed_delta next_change : ℚ),
      c.min_speed_pps ≤ c.max_speed_pps →
      c.min_speed_pps ≤ c.speed_pps → c.speed_pps ≤ c.max_speed_pps →
      c.min_speed_pps ≤ (variableSpeedStep c dt speed_delta next_change).speed_pps ∧
      (variableSpeedStep c dt speed_delta next_change).speed_pps ≤ c.max_speed_pps) := by
  constructor
  · intro c rr hlen hspeed hns0 hns1 hu0 hu1
    rw [resetStreak_trail_length, resetStreak_speed_pps]
    set mn := c.config.length_range.1
    set mx := c.config.length_range.2
    have hspan : (0:ℚ) ≤ (mx : ℚ) - (mn : ℚ) := by
      rw [sub_nonneg]; exact_mod_cast hlen
    have hb0 : 0 ≤ rr.length_u * rr.length_u := mul_nonneg hu0 hu0
    have hb1 : rr.length_u * rr.length_u ≤ 1 := by nlinarith
    refine ⟨le_pyInt ?_, pyInt_le ?_, ?_, ?_⟩
    · nlinarith
    · nlinarith
    · nlinarith [mul_nonneg (sub_nonneg.mpr hspeed) hns0]
    · nlinarith [mul_le_of_le_one_right (sub_nonneg.mpr hspeed) hns1]
  · intro c dt speed_delta next_change hrange hlo hhi
    rcases variableSpeedStep_speed c dt speed_delta next_change with h | h <;> rw [h]
    · exact ⟨hlo, hhi⟩
    · exact ⟨le_max_left _ _, max_le hrange (min_le_left _ _)⟩

/-- Witness for C4 at a concrete column and concrete oracles. -/
theorem reset_and_perturbation_in_range_witness :
    (testColumn.config.length_range.1 ≤ (resetStreak testColumn testReset).trail_length ∧
      (resetStreak testColumn testReset).trail_length ≤ testColumn.config.length_range.2 ∧
      testColumn.config.speed_range.1 ≤ (resetStreak testColumn testReset).speed_pps ∧
      (resetStreak testColumn testReset).speed_pps ≤ testColumn.config.speed_range.2) ∧
    (testColumn.min_speed_pps ≤ (variableSpeedStep testColumn 1 7 1).speed_pps ∧
      (variableSpeedStep testColumn 1 7 1).speed_pps ≤ testColumn.max_speed_pps) :=
  ⟨reset_and_perturbation_in_range.1 testColumn testReset
      (by norm_num [testColumn, fgConfig, FG_LENGTH_RANGE])
      (by norm_num [testColumn, fgConfig, FG_SPEED_RANGE])
      (by norm_num [testReset]) (by norm_num [testReset])
      (by norm_num [testReset]) (by norm_num [testReset]),
   reset_and_perturbation_in_range.2 testColumn 1 7 1 (by norm_num [testColumn])
      (by norm_num [testColumn]) (by norm_num [testColumn])⟩

theorem variableSpeedStep_cascade_fields (c : Column) (dt speed_delta next_change : ℚ) :
    (variableSpeedStep c dt speed_delta next_change).cascade_pos_float =
        c.cascade_pos_float ∧
      (variableSpeedStep c dt speed_delta next_change).trail_length = c.trail_length := by
  simp only [variableSpeedStep, VARIABLE_SPEED_ENABLED, if_true]
  split_ifs <;> simp

theorem advanceLeader_cascade_fields (c : Column) (dt : ℚ) :
    (advanceLeader c dt).cascade_pos_float = c.cascade_pos_float ∧
      (advanceLeader c dt).trail_length = c.trail_length := by
  simp [advanceLeader]

theorem flickerLeaderUpdate_cascade_fields (c : Column) (dt : ℚ) (pow13 : ℚ → ℚ) :
    (flickerLeaderUpdate c dt pow13).cascade_pos_float = c.cascade_pos_float ∧
      (flickerLeaderUpdate c dt pow13).trail_length = c.trail_length := by
  simp only [flickerLeaderUpdate]
  split_ifs <;> simp

theorem cascadeOverlayDecay_inv (c : Column) (dt : ℚ)
    (hinv : cascadeInv c) (hdt : 0 ≤ dt) : cascadeInv (cascadeOverlayDecay c dt) := by
  have hstep : 0 ≤ CASCADE_SPEED_CPS * dt :=
    mul_nonneg (by norm_num [CASCADE_SPEED_CPS]) hdt
  simp only [cascadeOverlayDecay]
  split_ifs with h1 h2
  · exact Or.inl rfl
  · rcases hinv with h | ⟨hlo, hhi⟩
    · exact absurd h h1
    · refine Or.inr ⟨?_, ?_⟩
      · exact not_lt.mp h2
      · show c.cascade_pos_float - CASCADE_SPEED_CPS * dt < (c.trail_length : ℚ)
        linarith
  · exact hinv

/-- C1: the cascade-overlay invariant (`cascade_pos_float = -1`, or an offset
in `[0, trail_length)`) holds after construction, is preserved by every
`trigger_cascade` call, and is preserved by every `update_and_draw` call with
nonnegative elapsed time. -/
theorem cascade_overlay_invariant :
    (∀ (id : ℕ) (x screen_height : ℚ) (config : ColumnConfig) (ir : InitRands),
      cascadeInv (mkColumn id x screen_height config ir)) ∧
    (∀ (c : Column) (y_pos : ℚ) (is_dark : Bool),
      cascadeInv c → cascadeInv (triggerCascade c y_pos is_dark)) ∧
    (∀ (c : Column) (dt : ℚ) (ur : UpdateRands),
      cascadeInv c → 0 ≤ dt → cascadeInv (updateAndDraw c dt ur).1) := by
  refine ⟨?_, ?_, ?_⟩
  · intro id x screen_height config ir
    simp only [mkColumn]
    split_ifs <;>
      first
        | exact Or.inl rfl
        | exact Or.inl (resetStreak_cascade_pos _ _)
  · intro c y_pos is_dark hinv
    simp only [triggerCascade]
    split_ifs with h1 h2 h3 h4 h5 h6 <;>
      first
        | exact hinv
        | exact Or.inr h4
        | exact Or.inr (not_not.mp h4)
  · intro c dt ur hinv hdt
    have hvss := variableSpeedStep_cascade_fields c dt ur.speed_delta ur.next_speed_change
    have hadv :=
      advanceLeader_cascade_fields (variableSpeedStep c dt ur.speed_delta ur.next_speed_change) dt
    have hinv2 :
        cascadeInv (advanceLeader (variableSpeedStep c dt ur.speed_delta ur.next_speed_change) dt) := by
      unfold cascadeInv
      rw [hadv.1, hadv.2, hvss.1, hvss.2]
      exact hinv
    have hfl :=
      flickerLeaderUpdate_cascade_fields
        (advanceLeader (variableSpeedStep c dt ur.speed_delta ur.next_speed_change) dt) dt ur.pow13
    have hinvfl :
        cascadeInv (flickerLeaderUpdate
          (advanceLeader (variableSpeedStep c dt ur.speed_delta ur.next_speed_change) dt)
          dt ur.pow13) := by
      unfold cascadeInv
      rw [hfl.1, hfl.2]
      exact hinv2
    simp only [updateAndDraw]
    split_ifs <;>
      first
        | exact hinv
        | exact Or.inl (resetStreak_cascade_pos _ _)
        | exact hinvfl
        | exact hinv2
        | exact cascadeOverlayDecay_inv _ dt hinvfl hdt
        | exact cascadeOverlayDecay_inv _ dt hinv2 hdt


/-- Witness for C1 at a concrete column, dt = 1. -/
theorem cascade_overlay_invariant_witness :
    cascadeInv (updateAndDraw testColumn 1 testUpdateRands).1 :=
  cascade_overlay_invariant.2.2 testColumn 1 testUpdateRands (Or.inl rfl) (by norm_num)


theorem cascadeColStep_spec (casc : Cascade) (col : Column) :
    ((cascadeColStep casc col).2.2 = false ∧
      (cascadeColStep casc col).1.triggered_columns = casc.triggered_columns) ∨
    ((cascadeColStep casc col).2.2 = true ∧
      (cascadeColStep casc col).1.triggered_columns =
        col.id :: casc.triggered_columns ∧
      col.id ∉ casc.triggered_columns) := by
  simp only [cascadeColStep]
  split_ifs with h1 h2 h3 h4 <;>
    first
      | exact Or.inl ⟨rfl, rfl⟩
      | exact Or.inr ⟨rfl, rfl, fun hm => h2 (Or.inl hm)⟩

theorem cascadeCols_spec (colId : ℕ) :
    ∀ (cols : List Column) (casc : Cascade),
      ((cascadeCols casc cols).2.2.count colId ≤ 1) ∧
      (colId ∈ casc.triggered_columns → (cascadeCols casc cols).2.2.count colId = 0) ∧
      (colId ∈ casc.triggered_columns →
        colId ∈ (cascadeCols casc cols).1.triggered_columns) ∧
      (colId ∈ (cascadeCols casc cols).2.2 →
        colId ∈ (cascadeCols casc cols).1.triggered_columns) := by
  intro cols
  induction cols with
  | nil =>
    intro casc
    refine ⟨by simp [cascadeCols], fun _ => by simp [cascadeCols], fun h => ?_, fun h => ?_⟩
    · simpa [cascadeCols] using h
    · simp [cascadeCols] at h
  | cons col rest ih =>
    intro casc
    rcases cascadeColStep_spec casc col with ⟨hfire, htrig⟩ | ⟨hfire, htrig, hnotin⟩
    · have ihs := ih (cascadeColStep casc col).1
      rw [htrig] at ihs
      refine ⟨?_, ?_, ?_, ?_⟩ <;>
        simp only [cascadeCols, hfire, if_false, Bool.false_eq_true]
      · exact ihs.1
      · exact ihs.2.1
      · exact ihs.2.2.1
      · exact ihs.2.2.2
    · have ihs := ih (cascadeColStep casc col).1
      rw [htrig] at ihs
      by_cases hid : colId = col.id
      · subst hid
        have hmem : col.id ∈ col.id :: casc.triggered_columns := List.mem_cons_self _ _
        refine ⟨?_, ?_, ?_, ?_⟩ <;>
          simp only [cascadeCols, hfire, if_true]
        · rw [List.count_cons_self, ihs.2.1 hmem]
        · intro h; exact absurd h hnotin
        · intro h; exact absurd h hnotin
        · intro _; exact ihs.2.2.1 hmem
      · refine ⟨?_, ?_, ?_, ?_⟩ <;>
          simp only [cascadeCols, hfire, if_true]
        · rw [List.count_cons_of_ne hid]; exact ihs.1
        · intro h
          rw [List.count_cons_of_ne hid]
          exact ihs.2.1 (List.mem_cons_of_mem _ h)
        · intro h
          exact ihs.2.2.1 (List.mem_cons_of_mem _ h)
        · intro h
          rcases List.mem_cons.mp h with h | h
          · exact absurd h hid
          · exact ihs.2.2.2 h

theorem cascadeUpdate_spec (colId : ℕ) (casc : Cascade) (cols : List Column) (dt : ℚ) :
    ((cascadeUpdate casc cols dt).2.2.count colId ≤ 1) ∧
    (colId ∈ casc.triggered_columns → (cascadeUpdate casc cols dt).2.2.count colId = 0) ∧
    (colId ∈ casc.triggered_columns →
      colId ∈ (cascadeUpdate casc cols dt).1.triggered_columns) ∧
    (colId ∈ (cascadeUpdate casc cols dt).2.2 →
      colId ∈ (cascadeUpdate casc cols dt).1.triggered_columns) :=
  cascadeCols_spec colId cols
    { casc with current_radius := casc.current_radius + casc.speed * dt }

theorem cascadeRun_spec (colId : ℕ) :
    ∀ (steps : List (List Column × ℚ)) (casc : Cascade),
      ((cascadeRun casc steps).2.count colId ≤ 1) ∧
      (colId ∈ casc.triggered_columns → (cascadeRun casc steps).2.count colId = 0) := by
  intro steps
  induction steps with
  | nil => intro casc; exact ⟨by simp [cascadeRun], fun _ => by simp [cascadeRun]⟩
  | cons step rest ih =>
    intro casc
    obtain ⟨cols, dt⟩ := step
    have hu := cascadeUpdate_spec colId casc cols dt
    have ihs := ih (cascadeUpdate casc cols dt).1
    constructor
    · simp only [cascadeRun, List.count_append]
      by_cases hmem : colId ∈ (cascadeUpdate casc cols dt).2.2
      · rw [ihs.2 (hu.2.2.2 hmem)]
        omega
      · rw [List.count_eq_zero.mpr hmem]
        omega
    · intro h
      simp only [cascadeRun, List.count_append]
      rw [hu.2.1 h, ihs.2 (hu.2.2.1 h)]

/-- C3: across any sequence of `HighlightCascadeManager.update` calls, a
given cascade causes at most one `trigger_cascade` call on any given column:
once a column is in the cascade's `triggered_columns` set it is never
triggered again by that cascade. -/
theorem cascade_triggers_each_column_at_most_once (origin_x origin_y : ℚ)
    (is_dark : Bool) (steps : List (List Column × ℚ)) (colId : ℕ) :
    (cascadeRun (mkCascade origin_x origin_y is_dark) steps).2.count colId ≤ 1 :=
  (cascadeRun_spec colId steps (mkCascade origin_x origin_y is_dark)).1

/-- Counterexample for C6: one manager update of 1.0 s grows a fresh
speed-500 cascade to radius exactly 500, but the cascade is NOT removed from
the active set, because removal requires `current_radius > max_radius`
strictly (line 315). -/
theorem cascade_at_max_radius_not_removed :
    (managerUpdate c6Manager 1 c6Rands).active_cascades ≠ [] ∧
    (managerUpdate c6Manager 1 c6Rands).active_cascades.map
      Cascade.current_radius = [500] := by
  constructor <;>
    norm_num [managerUpdate, c6Manager, c6Rands, mkCascade, startNewCascade,
      cascadeUpdate, cascadeCols, CASCADE_CHANCE_PER_SECOND,
      CASCADE_RADIUS_PPS, CASCADE_MAX_RADIUS]

/-- C6 as amended: after a single 1.0 s update the cascade's radius equals
500 and it is still active (removal fires only strictly beyond the max
radius); any further update with positive elapsed time then removes it. -/
theorem cascade_at_max_radius_removed_next (dt2 : ℚ) (r2 : MgrRands) (h : 0 < dt2) :
    (managerUpdate c6Manager 1 c6Rands).active_cascades.map
      Cascade.current_radius = [500] ∧
    (managerUpdate (managerUpdate c6Manager 1 c6Rands) dt2 r2).active_cascades = [] := by
  have h1 : managerUpdate c6Manager 1 c6Rands =
      { all_columns := [], active_cascades := [⟨0, 0, false, 500, 500, 500, []⟩] } := by
    norm_num [managerUpdate, c6Manager, c6Rands, mkCascade, startNewCascade,
      cascadeUpdate, cascadeCols, CASCADE_CHANCE_PER_SECOND,
      CASCADE_RADIUS_PPS, CASCADE_MAX_RADIUS]
  refine ⟨by rw [h1]; simp, ?_⟩
  rw [h1]
  have hgrow : (500:ℚ) + 500 * dt2 > 500 := by nlinarith
  simp [managerUpdate, startNewCascade, cascadeUpdate, cascadeCols, hgrow]

/-- Witness for the amended C6 at a concrete second update. -/
theorem cascade_at_max_radius_removed_next_witness :
    (managerUpdate c6Manager 1 c6Rands).active_cascades.map
      Cascade.current_radius = [500] ∧
    (managerUpdate (managerUpdate c6Manager 1 c6Rands) 1 c6Rands).active_cascades = [] :=
  cascade_at_max_radius_removed_next 1 c6Rands (by norm_num)

theorem smoothstep_nonneg {t : ℚ} (h0 : 0 ≤ t) (h1 : t ≤ 1) : 0 ≤ smoothstep t := by
  unfold smoothstep
  nlinarith

theorem smoothstep_le_one {t : ℚ} (h0 : 0 ≤ t) (h1 : t ≤ 1) : smoothstep t ≤ 1 := by
  unfold smoothstep
  nlinarith [sq_nonneg (1 - t)]

theorem smoothstep_mono {t u : ℚ} (h0 : 0 ≤ t) (htu : t ≤ u) (h1 : u ≤ 1) :
    smoothstep t ≤ smoothstep u := by
  unfold smoothstep
  nlinarith [mul_nonneg h0 (sub_nonneg.mpr h1), mul_nonneg (h0.trans htu) (sub_nonneg.mpr h1),
    mul_nonneg h0 (sub_nonneg.mpr (htu.trans h1)), sq_nonneg (u - t),
    mul_nonneg (sub_nonneg.mpr htu) (sub_nonneg.mpr h1)]

theorem lerpComp_anti (sc ec : ℤ) (h : ec ≤ sc) {u u' : ℚ} (huu : u ≤ u') :
    lerpComp sc ec u' ≤ lerpComp sc ec u := by
  apply pyInt_mono
  have hc : ((ec : ℚ) - (sc : ℚ)) ≤ 0 := by
    rw [sub_nonpos]; exact_mod_cast h
  nlinarith

theorem le_lerpComp (sc ec : ℤ) (h : ec ≤ sc) {u : ℚ} (h0 : 0 ≤ u) (h1 : u ≤ 1) :
    ec ≤ lerpComp sc ec u := by
  apply le_pyInt
  have hc : (0:ℚ) ≤ (sc : ℚ) - (ec : ℚ) := by
    rw [sub_nonneg]; exact_mod_cast h
  nlinarith

theorem lerpComp_le (sc ec : ℤ) (h : ec ≤ sc) {u : ℚ} (h0 : 0 ≤ u) (h1 : u ≤ 1) :
    lerpComp sc ec u ≤ sc := by
  apply pyInt_le
  have hc : ((ec : ℚ) - (sc : ℚ)) ≤ 0 := by
    rw [sub_nonpos]; exact_mod_cast h
  nlinarith

theorem clamp255_mono {m n : ℤ} (h : m ≤ n) : clamp255 m ≤ clamp255 n :=
  max_le_max le_rfl (min_le_min le_rfl h)

theorem le_clamp255 {e n : ℤ} (he255 : e ≤ 255) (h : e ≤ n) : e ≤ clamp255 n :=
  le_max_of_le_right (le_min he255 h)

theorem clamp255_le {s n : ℤ} (hs0 : 0 ≤ s) (h : n ≤ s) : clamp255 n ≤ s :=
  max_le hs0 ((min_le_right 255 n).trans h)

theorem rgbLE_trans {c d e : RGB} (h1 : rgbLE c d) (h2 : rgbLE d e) : rgbLE c e :=
  ⟨h1.1.trans h2.1, h1.2.1.trans h2.2.1, h1.2.2.trans h2.2.2⟩

theorem segTriple_anti (a b : ℚ) (s e : RGB) (hab : a < b) (hes : rgbLE e s)
    {p p' : ℚ} (hp : a ≤ p) (hpp : p ≤ p') (hp' : p' ≤ b) :
    rgbLE (segTriple a b s e p') (segTriple a b s e p) := by
  have hba : 0 < b - a := by linarith
  have ht0 : 0 ≤ (p - a) / (b - a) := div_nonneg (by linarith) hba.le
  have htt : (p - a) / (b - a) ≤ (p' - a) / (b - a) :=
    (div_le_div_right hba).mpr (by linarith)
  have ht1 : (p' - a) / (b - a) ≤ 1 := by
    rw [div_le_one hba]; linarith
  have hsm := smoothstep_mono ht0 htt ht1
  exact ⟨clamp255_mono (lerpComp_anti _ _ hes.1 hsm),
    clamp255_mono (lerpComp_anti _ _ hes.2.1 hsm),
    clamp255_mono (lerpComp_anti _ _ hes.2.2 hsm)⟩

theorem segTriple_lb (a b : ℚ) (s e : RGB) (hab : a < b) (hes : rgbLE e s)
    (hs255 : rgbLE s (255, 255, 255)) {p : ℚ} (hp : a ≤ p) (hp' : p ≤ b) :
    rgbLE e (segTriple a b s e p) := by
  have hba : 0 < b - a := by linarith
  have ht0 : 0 ≤ (p - a) / (b - a) := div_nonneg (by linarith) hba.le
  have ht1 : (p - a) / (b - a) ≤ 1 := by
    rw [div_le_one hba]; linarith
  have hu0 := smoothstep_nonneg ht0 ht1
  have hu1 := smoothstep_le_one ht0 ht1
  exact ⟨le_clamp255 (hes.1.trans hs255.1) (le_lerpComp _ _ hes.1 hu0 hu1),
    le_clamp255 (hes.2.1.trans hs255.2.1) (le_lerpComp _ _ hes.2.1 hu0 hu1),
    le_clamp255 (hes.2.2.trans hs255.2.2) (le_lerpComp _ _ hes.2.2 hu0 hu1)⟩

theorem segTriple_ub (a b : ℚ) (s e : RGB) (hab : a < b) (hes : rgbLE e s)
    (he0 : rgbLE (0, 0, 0) e) {p : ℚ} (hp : a ≤ p) (hp' : p ≤ b) :
    rgbLE (segTriple a b s e p) s := by
  have hba : 0 < b - a := by linarith
  have ht0 : 0 ≤ (p - a) / (b - a) := div_nonneg (by linarith) hba.le
  have ht1 : (p - a) / (b - a) ≤ 1 := by
    rw [div_le_one hba]; linarith
  have hu0 := smoothstep_nonneg ht0 ht1
  have hu1 := smoothstep_le_one ht0 ht1
  exact ⟨clamp255_le (he0.1.trans hes.1) (lerpComp_le _ _ hes.1 hu0 hu1),
    clamp255_le (he0.2.1.trans hes.2.1) (lerpComp_le _ _ hes.2.1 hu0 hu1),
    clamp255_le (he0.2.2.trans hes.2.2) (lerpComp_le _ _ hes.2.2 hu0 hu1)⟩


theorem gradientEntry_seg0 {p : ℚ} (h0 : 0 ≤ p) (h1 : p ≤ 1/50) :
    gradientEntry defaultStops p =
      segTriple (0) (1/50) (255, 255, 255) (80, 255, 160) p := by
  norm_num [gradientEntry, defaultStops, colorStops, findStops, segTriple, h0, h1]

theorem gradientEntry_seg1 {p : ℚ} (h0 : 1/50 < p) (h1 : p ≤ 3/20) :
    gradientEntry defaultStops p =
      segTriple (1/50) (3/20) (80, 255, 160) (80, 255, 160) p := by
  norm_num [gradientEntry, defaultStops, colorStops, findStops, segTriple, not_le.mpr h0, le_of_lt h0, h1]

theorem gradientEntry_seg2 {p : ℚ} (h0 : 3/20 < p) (h1 : p ≤ 3/10) :
    gradientEntry defaultStops p =
      segTriple (3/20) (3/10) (80, 255, 160) (65, 217, 140) p := by
  norm_num [gradientEntry, defaultStops, colorStops, findStops, segTriple, not_le.mpr h0, le_of_lt h0, h1, not_le.mpr (lt_of_le_of_lt (by norm_num : (1/50:ℚ) ≤ 3/20) h0)]

theorem gradientEntry_seg3 {p : ℚ} (h0 : 3/10 < p) (h1 : p ≤ 1/2) :
    gradientEntry defaultStops p =
      segTriple (3/10) (1/2) (65, 217, 140) (50, 180, 120) p := by
  norm_num [gradientEntry, defaultStops, colorStops, findStops, segTriple, not_le.mpr h0, le_of_lt h0, h1, not_le.mpr (lt_of_le_of_lt (by norm_num : (1/50:ℚ) ≤ 3/10) h0), not_le.mpr (lt_of_le_of_lt (by norm_num : (3/20:ℚ) ≤ 3/10) h0)]

theorem gradientEntry_seg4 {p : ℚ} (h0 : 1/2 < p) (h1 : p ≤ 3/4) :
    gradientEntry defaultStops p =
      segTriple (1/2) (3/4) (50, 180, 120) (25, 90, 60) p := by
  norm_num [gradientEntry, defaultStops, colorStops, findStops, segTriple, not_le.mpr h0, le_of_lt h0, h1, not_le.mpr (lt_of_le_of_lt (by norm_num : (1/50:ℚ) ≤ 1/2) h0), not_le.mpr (lt_of_le_of_lt (by norm_num : (3/20:ℚ) ≤ 1/2) h0), not_le.mpr (lt_of_le_of_lt (by norm_num : (3/10:ℚ) ≤ 1/2) h0)]

theorem gradientEntry_seg5 {p : ℚ} (h0 : 3/4 < p) (h1 : p ≤ 1) :
    gradientEntry defaultStops p =
      segTriple (3/4) (1) (25, 90, 60) (0, 0, 0) p := by
  norm_num [gradientEntry, defaultStops, colorStops, findStops, segTriple, not_le.mpr h0, le_of_lt h0, h1, not_le.mpr (lt_of_le_of_lt (by norm_num : (1/50:ℚ) ≤ 3/4) h0), not_le.mpr (lt_of_le_of_lt (by norm_num : (3/20:ℚ) ≤ 3/4) h0), not_le.mpr (lt_of_le_of_lt (by norm_num : (3/10:ℚ) ≤ 3/4) h0), not_le.mpr (lt_of_le_of_lt (by norm_num : (1/2:ℚ) ≤ 3/4) h0)]

theorem gradientEntry_anti {p p' : ℚ} (hp0 : 0 ≤ p) (hpp : p ≤ p') (hp1 : p' ≤ 1) :
    rgbLE (gradientEntry defaultStops p') (gradientEntry defaultStops p) := by
  rcases le_or_lt p (1/50) with hP1 | hP1
  · -- p in segment 0
    rcases le_or_lt p' (1/50) with hQ1 | hQ1
    · -- p' in segment 0
      rw [gradientEntry_seg0 hp0 hP1, gradientEntry_seg0 (hp0.trans hpp) hQ1]
      exact segTriple_anti _ _ _ _ (by norm_num) (by decide) hp0 hpp hQ1
    ·
      rcases le_or_lt p' (3/20) with hQ2 | hQ2
      · -- p' in segment 1
        rw [gradientEntry_seg0 hp0 hP1, gradientEntry_seg1 hQ1 hQ2]
        exact rgbLE_trans (rgbLE_trans
          (segTriple_ub _ _ _ _ (by norm_num) (by decide) (by decide) (le_of_lt hQ1) hQ2)
          (by decide))
          (segTriple_lb _ _ _ _ (by norm_num) (by decide) (by decide) hp0 hP1)
      ·
        rcases le_or_lt p' (3/10) with hQ3 | hQ3
        · -- p' in segment 2
          rw [gradientEntry_seg0 hp0 hP1, gradientEntry_seg2 hQ2 hQ3]
          exact rgbLE_trans (rgbLE_trans
            (segTriple_ub _ _ _ _ (by norm_num) (by decide) (by decide) (le_of_lt hQ2) hQ3)
            (by decide))
            (segTriple_lb _ _ _ _ (by norm_num) (by decide) (by decide) hp0 hP1)
        ·
          rcases le_or_lt p' (1/2) with hQ4 | hQ4
          · -- p' in segment 3
            rw [gradientEntry_seg0 hp0 hP1, gradientEntry_seg3 hQ3 hQ4]
            exact rgbLE_trans (rgbLE_trans
              (segTriple_ub _ _ _ _ (by norm_num) (by decide) (by decide) (le_of_lt hQ3) hQ4)
              (by decide))
              (segTriple_lb _ _ _ _ (by norm_num) (by decide) (by decide) hp0 hP1)
          ·
            rcases le_or_lt p' (3/4) with hQ5 | hQ5
            · -- p' in segment 4
              rw [gradientEntry_seg0 hp0 hP1, gradientEntry_seg4 hQ4 hQ5]
              exact rgbLE_trans (rgbLE_trans
                (segTriple_ub _ _ _ _ (by norm_num) (by decide) (by decide) (le_of_lt hQ4) hQ5)
                (by decide))
                (segTriple_lb _ _ _ _ (by norm_num) (by decide) (by decide) hp0 hP1)
            ·
              rw [gradientEntry_seg0 hp0 hP1, gradientEntry_seg5 hQ5 hp1]
              exact rgbLE_trans (rgbLE_trans
                (segTriple_ub _ _ _ _ (by norm_num) (by decide) (by decide) (le_of_lt hQ5) hp1)
                (by decide))
                (segTriple_lb _ _ _ _ (by norm_num) (by decide) (by decide) hp0 hP1)
  ·
    rcases le_or_lt p (3/20) with hP2 | hP2
    · -- p in segment 1
      rcases le_or_lt p' (1/50) with hQ1 | hQ1
      · -- p' in segment 0
        exfalso; linarith
      ·
        rcases le_or_lt p' (3/20) with hQ2 | hQ2
        · -- p' in segment 1
          rw [gradientEntry_seg1 hP1 hP2, gradientEntry_seg1 hQ1 hQ2]
          exact segTriple_anti _ _ _ _ (by norm_num) (by decide) (le_of_lt hP1) hpp hQ2
        ·
          rcases le_or_lt p' (3/10) with hQ3 | hQ3
          · -- p' in segment 2
            rw [gradientEntry_seg1 hP1 hP2, gradientEntry_seg2 hQ2 hQ3]
            exact rgbLE_trans (rgbLE_trans
              (segTriple_ub _ _ _ _ (by norm_num) (by decide) (by decide) (le_of_lt hQ2) hQ3)
              (by decide))
              (segTriple_lb _ _ _ _ (by norm_num) (by decide) (by decide) (le_of_lt hP1) hP2)
          ·
            rcases le_or_lt p' (1/2) with hQ4 | hQ4
            · -- p' in segment 3
              rw [gradientEntry_seg1 hP1 hP2, gradientEntry_seg3 hQ3 hQ4]
              exact rgbLE_trans (rgbLE_trans
                (segTriple_ub _ _ _ _ (by norm_num) (by decide) (by decide) (le_of_lt hQ3) hQ4)
                (by decide))
                (segTriple_lb _ _ _ _ (by norm_num) (by decide) (by decide) (le_of_lt hP1) hP2)
            ·
              rcases le_or_lt p' (3/4) with hQ5 | hQ5
              · -- p' in segment 4
                rw [gradientEntry_seg1 hP1 hP2, gradientEntry_seg4 hQ4 hQ5]
                exact rgbLE_trans (rgbLE_trans
                  (segTriple_ub _ _ _ _ (by norm_num) (by decide) (by decide) (le_of_lt hQ4) hQ5)
                  (by decide))
                  (segTriple_lb _ _ _ _ (by norm_num) (by decide) (by decide) (le_of_lt hP1) hP2)
              ·
                rw [gradientEntry_seg1 hP1 hP2, gradientEntry_seg5 hQ5 hp1]
                exact rgbLE_trans (rgbLE_trans
                  (segTriple_ub _ _ _ _ (by norm_num) (by decide) (by decide) (le_of_lt hQ5) hp1)
                  (by decide))
                  (segTriple_lb _ _ _ _ (by norm_num) (by decide) (by decide) (le_of_lt hP1) hP2)
    ·
      rcases le_or_lt p (3/10) with hP3 | hP3
      · -- p in segment 2
        rcases le_or_lt p' (1/50) with hQ1 | hQ1
        · -- p' in segment 0
          exfalso; linarith
        ·
          rcases le_or_lt p' (3/20) with hQ2 | hQ2
          · -- p' in segment 1
            exfalso; linarith
          ·
            rcases le_or_lt p' (3/10) with hQ3 | hQ3
            · -- p' in segment 2
              rw [gradientEntry_seg2 hP2 hP3, gradientEntry_seg2 hQ2 hQ3]
              exact segTriple_anti _ _ _ _ (by norm_num) (by decide) (le_of_lt hP2) hpp hQ3
            ·
              rcases le_or_lt p' (1/2) with hQ4 | hQ4
              · -- p' in segment 3
                rw [gradientEntry_seg2 hP2 hP3, gradientEntry_seg3 hQ3 hQ4]
                exact rgbLE_trans (rgbLE_trans
                  (segTriple_ub _ _ _ _ (by norm_num) (by decide) (by decide) (le_of_lt hQ3) hQ4)
                  (by decide))
                  (segTriple_lb _ _ _ _ (by norm_num) (by decide) (by decide) (le_of_lt hP2) hP3)
              ·
                rcases le_or_lt p' (3/4) with hQ5 | hQ5
                · -- p' in segment 4
                  rw [gradientEntry_seg2 hP2 hP3, gradientEntry_seg4 hQ4 hQ5]
                  exact rgbLE_trans (rgbLE_trans
                    (segTriple_ub _ _ _ _ (by norm_num) (by decide) (by decide) (le_of_lt hQ4) hQ5)
                    (by decide))
                    (segTriple_lb _ _ _ _ (by norm_num) (by decide) (by decide) (le_of_lt hP2) hP3)
                ·
                  rw [gradientEntry_seg2 hP2 hP3, gradientEntry_seg5 hQ5 hp1]
                  exact rgbLE_trans (rgbLE_trans
                    (segTriple_ub _ _ _ _ (by norm_num) (by decide) (by decide) (le_of_lt hQ5) hp1)
                    (by decide))
                    (segTriple_lb _ _ _ _ (by norm_num) (by decide) (by decide) (le_of_lt hP2) hP3)
      ·
        rcases le_or_lt p (1/2) with hP4 | hP4
        · -- p in segment 3
          rcases le_or_lt p' (1/50) with hQ1 | hQ1
          · -- p' in segment 0
            exfalso; linarith
          ·
            rcases le_or_lt p' (3/20) with hQ2 | hQ2
            · -- p' in segment 1
              exfalso; linarith
            ·
              rcases le_or_lt p' (3/10) with hQ3 | hQ3
              · -- p' in segment 2
                exfalso; linarith
              ·
                rcases le_or_lt p' (1/2) with hQ4 | hQ4
                · -- p' in segment 3
                  rw [gradientEntry_seg3 hP3 hP4, gradientEntry_seg3 hQ3 hQ4]
                  exact segTriple_anti _ _ _ _ (by norm_num) (by decide) (le_of_lt hP3) hpp hQ4
                ·
                  rcases le_or_lt p' (3/4) with hQ5 | hQ5
                  · -- p' in segment 4
                    rw [gradientEntry_seg3 hP3 hP4, gradientEntry_seg4 hQ4 hQ5]
                    exact rgbLE_trans (rgbLE_trans
                      (segTriple_ub _ _ _ _ (by norm_num) (by decide) (by decide) (le_of_lt hQ4) hQ5)
                      (by decide))
                      (segTriple_lb _ _ _ _ (by norm_num) (by decide) (by decide) (le_of_lt hP3) hP4)
                  ·
                    rw [gradientEntry_seg3 hP3 hP4, gradientEntry_seg5 hQ5 hp1]
                    exact rgbLE_trans (rgbLE_trans
                      (segTriple_ub _ _ _ _ (by norm_num) (by decide) (by decide) (le_of_lt hQ5) hp1)
                      (by decide))
                      (segTriple_lb _ _ _ _ (by norm_num) (by decide) (by decide) (le_of_lt hP3) hP4)
        ·
          rcases le_or_lt p (3/4) with hP5 | hP5
          · -- p in segment 4
            rcases le_or_lt p' (1/50) with hQ1 | hQ1
            · -- p' in segment 0
              exfalso; linarith
            ·
              rcases le_or_lt p' (3/20) with hQ2 | hQ2
              · -- p' in segment 1
                exfalso; linarith
              ·
                rcases le_or_lt p' (3/10) with hQ3 | hQ3
                · -- p' in segment 2
                  exfalso; linarith
                ·
                  rcases le_or_lt p' (1/2) with hQ4 | hQ4
                  · -- p' in segment 3
                    exfalso; linarith
                  ·
                    rcases le_or_lt p' (3/4) with hQ5 | hQ5
                    · -- p' in segment 4
                      rw [gradientEntry_seg4 hP4 hP5, gradientEntry_seg4 hQ4 hQ5]
                      exact segTriple_anti _ _ _ _ (by norm_num) (by decide) (le_of_lt hP4) hpp hQ5
                    ·
                      rw [gradientEntry_seg4 hP4 hP5, gradientEntry_seg5 hQ5 hp1]
                      exact rgbLE_trans (rgbLE_trans
                        (segTriple_ub _ _ _ _ (by norm_num) (by decide) (by decide) (le_of_lt hQ5) hp1)
                        (by decide))
                        (segTriple_lb _ _ _ _ (by norm_num) (by decide) (by decide) (le_of_lt hP4) hP5)
          ·
            have hPtop : p ≤ 1 := hpp.trans hp1
            rcases le_or_lt p' (1/50) with hQ1 | hQ1
            · -- p' in segment 0
              exfalso; linarith
            ·
              rcases le_or_lt p' (3/20) with hQ2 | hQ2
              · -- p' in segment 1
                exfalso; linarith
              ·
                rcases le_or_lt p' (3/10) with hQ3 | hQ3
                · -- p' in segment 2
                  exfalso; linarith
                ·
                  rcases le_or_lt p' (1/2) with hQ4 | hQ4
                  · -- p' in segment 3
                    exfalso; linarith
                  ·
                    rcases le_or_lt p' (3/4) with hQ5 | hQ5
                    · -- p' in segment 4
                      exfalso; linarith
                    ·
                      rw [gradientEntry_seg5 hP5 hPtop, gradientEntry_seg5 hQ5 hp1]
                      exact segTriple_anti _ _ _ _ (by norm_num) (by decide) (le_of_lt hP5) hpp hp1

theorem pyInt_intCast (n : ℤ) : pyInt (n : ℚ) = n := by
  unfold pyInt
  split_ifs
  · exact Int.floor_intCast n
  · exact Int.ceil_intCast n

theorem precomputeGradient_fgConfig (L : ℤ) (ns : ℚ) (hL : ¬ L ≤ 0) :
    precomputeGradient fgConfig L ns =
      (List.range L.toNat).map (fun (i : ℕ) =>
        if i = 0 then ((255 : ℤ), (255 : ℤ), (255 : ℤ))
        else gradientEntry defaultStops ((i : ℚ) / ((max 1 (L - 1) : ℤ) : ℚ))) := by
  unfold precomputeGradient
  rw [if_neg hL]
  have hbm : (1 : ℚ) + ns * (LEADER_BRIGHTNESS_SPEED_MULTIPLIER - 1) = 1 := by
    norm_num [LEADER_BRIGHTNESS_SPEED_MULTIPLIER]
  have hp255 : pyInt (255 : ℚ) = 255 := by
    rw [show (255 : ℚ) = ((255 : ℤ) : ℚ) by norm_num]
    exact pyInt_intCast 255
  have hf1 : Int.fdiv 130 2 = 65 := by decide
  have hf2 : Int.fdiv 435 2 = 217 := by decide
  have hf3 : Int.fdiv 280 2 = 140 := by decide
  have hf4 : Int.fdiv 50 2 = 25 := by decide
  have hf5 : Int.fdiv 180 2 = 90 := by decide
  have hf6 : Int.fdiv 120 2 = 60 := by decide
  simp only [fgConfig, FG_LEADER_COLOR, FG_SECOND_CHAR_COLOR, FG_TRAIL_COLOR, hbm]
  norm_num [hp255, hf1, hf2, hf3, hf4, hf5, hf6, defaultStops, colorStops]

theorem gradientEntry_lum_bounds (stops : List (ℚ × RGB)) (p : ℚ) :
    0 ≤ totalLuminance (gradientEntry stops p) ∧
      totalLuminance (gradientEntry stops p) ≤ 765 := by
  have h1 : 0 ≤ (gradientEntry stops p).1 ∧ (gradientEntry stops p).1 ≤ 255 :=
    clamp255_bounds _
  have h2 : 0 ≤ (gradientEntry stops p).2.1 ∧ (gradientEntry stops p).2.1 ≤ 255 :=
    clamp255_bounds _
  have h3 : 0 ≤ (gradientEntry stops p).2.2 ∧ (gradientEntry stops p).2.2 ≤ 255 :=
    clamp255_bounds _
  unfold totalLuminance
  constructor <;> linarith [h1.1, h1.2, h2.1, h2.2, h3.1, h3.2]

theorem lum_le_of_rgbLE {c d : RGB} (h : rgbLE c d) :
    totalLuminance c ≤ totalLuminance d := by
  unfold totalLuminance
  linarith [h.1, h.2.1, h.2.2]

/-- C5: for every trail length >= 1 and normalized speed in [0, 1], the
gradient produced by `_precompute_gradient` under the default colors has
total luminance (r + g + b) non-increasing from the head (index 0) to the
tail. -/
theorem gradient_luminance_nonincreasing (trail_length : ℤ) (hL : 1 ≤ trail_length)
    (normalized_speed : ℚ) (hns0 : 0 ≤ normalized_speed) (hns1 : normalized_speed ≤ 1)
    (i j : ℕ) (hij : i ≤ j)
    (hj : j < (precomputeGradient fgConfig trail_length normalized_speed).length) :
    totalLuminance
        ((precomputeGradient fgConfig trail_length normalized_speed).getD j (0, 0, 0)) ≤
      totalLuminance
        ((precomputeGradient fgConfig trail_length normalized_speed).getD i (0, 0, 0)) := by
  have hL' : ¬ trail_length ≤ 0 := by omega
  rw [precomputeGradient_fgConfig _ _ hL'] at hj ⊢
  have hjlen : j < trail_length.toNat := by simpa using hj
  have hilen : i < trail_length.toNat := lt_of_le_of_lt hij hjlen
  rw [List.getD_eq_getElem?_getD, List.getElem?_map, List.getElem?_range hjlen]
  rw [List.getD_eq_getElem?_getD, List.getElem?_map, List.getElem?_range hilen]
  simp only [Option.map_some', Option.getD_some]
  have hD1 : (1:ℚ) ≤ ((max 1 (trail_length - 1) : ℤ) : ℚ) := by
    exact_mod_cast le_max_left 1 (trail_length - 1)
  have hD0 : (0:ℚ) < ((max 1 (trail_length - 1) : ℤ) : ℚ) := lt_of_lt_of_le one_pos hD1
  by_cases hi0 : i = 0
  · subst hi0
    rw [if_pos rfl]
    by_cases hj0 : j = 0
    · subst hj0
      rw [if_pos rfl]
    · rw [if_neg hj0]
      have hb := (gradientEntry_lum_bounds defaultStops
        ((j : ℚ) / ((max 1 (trail_length - 1) : ℤ) : ℚ))).2
      unfold totalLuminance at hb ⊢
      push_cast at hb
      norm_num
      linarith
  · have hj0 : j ≠ 0 := by omega
    rw [if_neg hi0, if_neg hj0]
    apply lum_le_of_rgbLE
    apply gradientEntry_anti
    · exact div_nonneg (Nat.cast_nonneg i) hD0.le
    · exact (div_le_div_right hD0).mpr (by exact_mod_cast hij)
    · rw [div_le_one hD0]
      have hjz : (j : ℤ) ≤ trail_length - 1 := by omega
      calc (j : ℚ) ≤ ((trail_length - 1 : ℤ) : ℚ) := by exact_mod_cast hjz
        _ ≤ ((max 1 (trail_length - 1) : ℤ) : ℚ) := by
            exact_mod_cast le_max_right 1 (trail_length - 1)

/-- Witness for C5: trail length 10, normalized speed 1/2, indices 2 and 7. -/
theorem gradient_luminance_nonincreasing_witness :
    totalLuminance ((precomputeGradient fgConfig 10 (1/2)).getD 7 (0, 0, 0)) ≤
      totalLuminance ((precomputeGradient fgConfig 10 (1/2)).getD 2 (0, 0, 0)) :=
  gradient_luminance_nonincreasing 10 (by norm_num) (1/2) (by norm_num) (by norm_num)
    2 7 (by norm_num)
    (by rw [precomputeGradient_fgConfig 10 (1/2) (by norm_num)]; simp)
